import Mathlib

/-!
Verification of the plugin-pipeline repository.

The repository's source under `src/` provides the fake plugin functions
`fake_upper` and `fake_strip`, the registry mapping of the fake module, and
the test scenario `test_pipeline_basic`.  The pipeline core itself
(`plugin_loader.init_pipeline`: the ConfigSpec loader and the pipeline
builder) is imported by the test but its file is not present, so it is
modelled here from the specification.

Python strings are embedded as lists of Unicode code points (`PyStr`).
`str.upper` and `str.strip` are embedded in full: the complete uppercase
mapping table of CPython's Unicode database (every code point whose
uppercase expansion differs from itself, including the multi-character
expansions, which make `upper` a flatMap rather than a map) and the
complete whitespace set of `str.isspace`.
-/

/-- A Python string, shallowly embedded as its list of code points. -/
abbrev PyStr := List Nat

/-- Encode a Lean string literal as a `PyStr` (code points). -/
def strToPy (s : String) : PyStr := s.data.map Char.toNat

/-- The whitespace code points of CPython's `str` (the set recognised by
`str.isspace` and stripped by `str.strip`), from the Unicode database. -/
def pyWhitespace : List Nat :=
  [9, 10, 11, 12, 13, 28, 29, 30, 31, 32, 133, 160, 5760, 8192, 8193, 8194,
   8195, 8196, 8197, 8198, 8199, 8200, 8201, 8202, 8232, 8233, 8239, 8287,
   12288]

/-- Whitespace test on one code point, as Python `str.strip` /
`str.isspace` decide it. -/
def pyIsSpace (c : Nat) : Bool := decide (c ∈ pyWhitespace)

/-- A binary search tree holding the uppercase mapping table. -/
inductive UTree where
  | leaf : UTree
  | node (l : UTree) (k : Nat) (v : List Nat) (r : UTree) : UTree

/-- Key lookup in a mapping tree. -/
def findT : UTree → Nat → Option (List Nat)
  | .leaf, _ => none
  | .node l k v r, c =>
    if c < k then findT l c
    else if c = k then some v
    else findT r c

/-- Every node of a mapping tree satisfies the boolean predicate. -/
def allTree (P : Nat → List Nat → Bool) : UTree → Bool
  | .leaf => true
  | .node l k v r => P k v && allTree P l && allTree P r

/-- The complete uppercase mapping of CPython's `str.upper` (Unicode
database of CPython 3.11): every code point whose uppercase expansion
differs from itself, with its possibly multi-character expansion (for
example 223 = U+00DF maps to [83, 83] = "SS"). -/
def upperTree : UTree :=
  (.node (.node (.node (.node (.node (.node (.node (.node (.node (.node (.node .leaf 97 [65] .leaf)
  98 [66] .leaf) 99 [67] (.node (.node .leaf 100 [68] .leaf) 101 [69] .leaf)) 102 [70] (.node (.node
  (.node .leaf 103 [71] .leaf) 104 [72] .leaf) 105 [73] (.node (.node .leaf 106 [74] .leaf) 107 [75]
  .leaf))) 108 [76] (.node (.node (.node (.node .leaf 109 [77] .leaf) 110 [78] .leaf) 111 [79]
  (.node (.node .leaf 112 [80] .leaf) 113 [81] .leaf)) 114 [82] (.node (.node (.node .leaf 115 [83]
  .leaf) 116 [84] .leaf) 117 [85] (.node (.node .leaf 118 [86] .leaf) 119 [87] .leaf)))) 120 [88]
  (.node (.node (.node (.node (.node .leaf 121 [89] .leaf) 122 [90] .leaf) 181 [924] (.node (.node
  .leaf 223 [83, 83] .leaf) 224 [192] .leaf)) 225 [193] (.node (.node (.node .leaf 226 [194] .leaf)
  227 [195] .leaf) 228 [196] (.node (.node .leaf 229 [197] .leaf) 230 [198] .leaf))) 231 [199]
  (.node (.node (.node (.node .leaf 232 [200] .leaf) 233 [201] .leaf) 234 [202] (.node (.node .leaf
  235 [203] .leaf) 236 [204] .leaf)) 237 [205] (.node (.node (.node .leaf 238 [206] .leaf) 239 [207]
  .leaf) 240 [208] (.node (.node .leaf 241 [209] .leaf) 242 [210] .leaf))))) 243 [211] (.node (.node
  (.node (.node (.node (.node .leaf 244 [212] .leaf) 245 [213] .leaf) 246 [214] (.node (.node .leaf
  248 [216] .leaf) 249 [217] .leaf)) 250 [218] (.node (.node (.node .leaf 251 [219] .leaf) 252 [220]
  .leaf) 253 [221] (.node (.node .leaf 254 [222] .leaf) 255 [376] .leaf))) 257 [256] (.node (.node
  (.node (.node .leaf 259 [258] .leaf) 261 [260] .leaf) 263 [262] (.node (.node .leaf 265 [264]
  .leaf) 267 [266] .leaf)) 269 [268] (.node (.node (.node .leaf 271 [270] .leaf) 273 [272] .leaf)
  275 [274] (.node (.node .leaf 277 [276] .leaf) 279 [278] .leaf)))) 281 [280] (.node (.node (.node
  (.node (.node .leaf 283 [282] .leaf) 285 [284] .leaf) 287 [286] (.node (.node .leaf 289 [288]
  .leaf) 291 [290] .leaf)) 293 [292] (.node (.node (.node .leaf 295 [294] .leaf) 297 [296] .leaf)
  299 [298] (.node (.node .leaf 301 [300] .leaf) 303 [302] .leaf))) 305 [73] (.node (.node (.node
  (.node .leaf 307 [306] .leaf) 309 [308] .leaf) 311 [310] (.node (.node .leaf 314 [313] .leaf) 316
  [315] .leaf)) 318 [317] (.node (.node (.node .leaf 320 [319] .leaf) 322 [321] .leaf) 324 [323]
  (.node (.node .leaf 326 [325] .leaf) 328 [327] .leaf)))))) 329 [700, 78] (.node (.node (.node
  (.node (.node (.node (.node .leaf 331 [330] .leaf) 333 [332] .leaf) 335 [334] (.node (.node .leaf
  337 [336] .leaf) 339 [338] .leaf)) 341 [340] (.node (.node (.node .leaf 343 [342] .leaf) 345 [344]
  .leaf) 347 [346] (.node (.node .leaf 349 [348] .leaf) 351 [350] .leaf))) 353 [352] (.node (.node
  (.node (.node .leaf 355 [354] .leaf) 357 [356] .leaf) 359 [358] (.node (.node .leaf 361 [360]
  .leaf) 363 [362] .leaf)) 365 [364] (.node (.node (.node .leaf 367 [366] .leaf) 369 [368] .leaf)
  371 [370] (.node (.node .leaf 373 [372] .leaf) 375 [374] .leaf)))) 378 [377] (.node (.node (.node
  (.node (.node .leaf 380 [379] .leaf) 382 [381] .leaf) 383 [83] (.node (.node .leaf 384 [579]
  .leaf) 387 [386] .leaf)) 389 [388] (.node (.node (.node .leaf 392 [391] .leaf) 396 [395] .leaf)
  402 [401] (.node (.node .leaf 405 [502] .leaf) 409 [408] .leaf))) 410 [573] (.node (.node (.node
  (.node .leaf 414 [544] .leaf) 417 [416] .leaf) 419 [418] (.node (.node .leaf 421 [420] .leaf) 424
  [423] .leaf)) 429 [428] (.node (.node (.node .leaf 432 [431] .leaf) 436 [435] .leaf) 438 [437]
  (.node (.node .leaf 441 [440] .leaf) 445 [444] .leaf))))) 447 [503] (.node (.node (.node (.node
  (.node (.node .leaf 453 [452] .leaf) 454 [452] .leaf) 456 [455] (.node (.node .leaf 457 [455]
  .leaf) 459 [458] .leaf)) 460 [458] (.node (.node (.node .leaf 462 [461] .leaf) 464 [463] .leaf)
  466 [465] (.node (.node .leaf 468 [467] .leaf) 470 [469] .leaf))) 472 [471] (.node (.node (.node
  (.node .leaf 474 [473] .leaf) 476 [475] .leaf) 477 [398] (.node (.node .leaf 479 [478] .leaf) 481
  [480] .leaf)) 483 [482] (.node (.node (.node .leaf 485 [484] .leaf) 487 [486] .leaf) 489 [488]
  (.node (.node .leaf 491 [490] .leaf) 493 [492] .leaf)))) 495 [494] (.node (.node (.node (.node
  (.node .leaf 496 [74, 780] .leaf) 498 [497] .leaf) 499 [497] (.node (.node .leaf 501 [500] .leaf)
  505 [504] .leaf)) 507 [506] (.node (.node (.node .leaf 509 [508] .leaf) 511 [510] .leaf) 513 [512]
  (.node (.node .leaf 515 [514] .leaf) 517 [516] .leaf))) 519 [518] (.node (.node (.node (.node
  .leaf 521 [520] .leaf) 523 [522] .leaf) 525 [524] (.node (.node .leaf 527 [526] .leaf) 529 [528]
  .leaf)) 531 [530] (.node (.node (.node .leaf 533 [532] .leaf) 535 [534] .leaf) 537 [536] (.node
  .leaf 539 [538] .leaf))))))) 541 [540] (.node (.node (.node (.node (.node (.node (.node (.node
  .leaf 543 [542] .leaf) 547 [546] .leaf) 549 [548] (.node (.node .leaf 551 [550] .leaf) 553 [552]
  .leaf)) 555 [554] (.node (.node (.node .leaf 557 [556] .leaf) 559 [558] .leaf) 561 [560] (.node
  (.node .leaf 563 [562] .leaf) 572 [571] .leaf))) 575 [11390] (.node (.node (.node (.node .leaf 576
  [11391] .leaf) 578 [577] .leaf) 583 [582] (.node (.node .leaf 585 [584] .leaf) 587 [586] .leaf))
  589 [588] (.node (.node (.node .leaf 591 [590] .leaf) 592 [11375] .leaf) 593 [11373] (.node (.node
  .leaf 594 [11376] .leaf) 595 [385] .leaf)))) 596 [390] (.node (.node (.node (.node (.node .leaf
  598 [393] .leaf) 599 [394] .leaf) 601 [399] (.node (.node .leaf 603 [400] .leaf) 604 [42923]
  .leaf)) 608 [403] (.node (.node (.node .leaf 609 [42924] .leaf) 611 [404] .leaf) 613 [42893]
  (.node (.node .leaf 614 [42922] .leaf) 616 [407] .leaf))) 617 [406] (.node (.node (.node (.node
  .leaf 618 [42926] .leaf) 619 [11362] .leaf) 620 [42925] (.node (.node .leaf 623 [412] .leaf) 625
  [11374] .leaf)) 626 [413] (.node (.node (.node .leaf 629 [415] .leaf) 637 [11364] .leaf) 640 [422]
  (.node (.node .leaf 642 [42949] .leaf) 643 [425] .leaf))))) 647 [42929] (.node (.node (.node
  (.node (.node (.node .leaf 648 [430] .leaf) 649 [580] .leaf) 650 [433] (.node (.node .leaf 651
  [434] .leaf) 652 [581] .leaf)) 658 [439] (.node (.node (.node .leaf 669 [42930] .leaf) 670 [42928]
  .leaf) 837 [921] (.node (.node .leaf 881 [880] .leaf) 883 [882] .leaf))) 887 [886] (.node (.node
  (.node (.node .leaf 891 [1021] .leaf) 892 [1022] .leaf) 893 [1023] (.node (.node .leaf 912 [921,
  776, 769] .leaf) 940 [902] .leaf)) 941 [904] (.node (.node (.node .leaf 942 [905] .leaf) 943 [906]
  .leaf) 944 [933, 776, 769] (.node (.node .leaf 945 [913] .leaf) 946 [914] .leaf)))) 947 [915]
  (.node (.node (.node (.node (.node .leaf 948 [916] .leaf) 949 [917] .leaf) 950 [918] (.node (.node
  .leaf 951 [919] .leaf) 952 [920] .leaf)) 953 [921] (.node (.node (.node .leaf 954 [922] .leaf) 955
  [923] .leaf) 956 [924] (.node (.node .leaf 957 [925] .leaf) 958 [926] .leaf))) 959 [927] (.node
  (.node (.node (.node .leaf 960 [928] .leaf) 961 [929] .leaf) 962 [931] (.node (.node .leaf 963
  [931] .leaf) 964 [932] .leaf)) 965 [933] (.node (.node (.node .leaf 966 [934] .leaf) 967 [935]
  .leaf) 968 [936] (.node (.node .leaf 969 [937] .leaf) 970 [938] .leaf)))))) 971 [939] (.node
  (.node (.node (.node (.node (.node (.node .leaf 972 [908] .leaf) 973 [910] .leaf) 974 [911] (.node
  (.node .leaf 976 [914] .leaf) 977 [920] .leaf)) 981 [934] (.node (.node (.node .leaf 982 [928]
  .leaf) 983 [975] .leaf) 985 [984] (.node (.node .leaf 987 [986] .leaf) 989 [988] .leaf))) 991
  [990] (.node (.node (.node (.node .leaf 993 [992] .leaf) 995 [994] .leaf) 997 [996] (.node (.node
  .leaf 999 [998] .leaf) 1001 [1000] .leaf)) 1003 [1002] (.node (.node (.node .leaf 1005 [1004]
  .leaf) 1007 [1006] .leaf) 1008 [922] (.node (.node .leaf 1009 [929] .leaf) 1010 [1017] .leaf))))
  1011 [895] (.node (.node (.node (.node (.node .leaf 1013 [917] .leaf) 1016 [1015] .leaf) 1019
  [1018] (.node (.node .leaf 1072 [1040] .leaf) 1073 [1041] .leaf)) 1074 [1042] (.node (.node (.node
  .leaf 1075 [1043] .leaf) 1076 [1044] .leaf) 1077 [1045] (.node (.node .leaf 1078 [1046] .leaf)
  1079 [1047] .leaf))) 1080 [1048] (.node (.node (.node (.node .leaf 1081 [1049] .leaf) 1082 [1050]
  .leaf) 1083 [1051] (.node (.node .leaf 1084 [1052] .leaf) 1085 [1053] .leaf)) 1086 [1054] (.node
  (.node (.node .leaf 1087 [1055] .leaf) 1088 [1056] .leaf) 1089 [1057] (.node (.node .leaf 1090
  [1058] .leaf) 1091 [1059] .leaf))))) 1092 [1060] (.node (.node (.node (.node (.node (.node .leaf
  1093 [1061] .leaf) 1094 [1062] .leaf) 1095 [1063] (.node (.node .leaf 1096 [1064] .leaf) 1097
  [1065] .leaf)) 1098 [1066] (.node (.node (.node .leaf 1099 [1067] .leaf) 1100 [1068] .leaf) 1101
  [1069] (.node (.node .leaf 1102 [1070] .leaf) 1103 [1071] .leaf))) 1104 [1024] (.node (.node
  (.node (.node .leaf 1105 [1025] .leaf) 1106 [1026] .leaf) 1107 [1027] (.node (.node .leaf 1108
  [1028] .leaf) 1109 [1029] .leaf)) 1110 [1030] (.node (.node (.node .leaf 1111 [1031] .leaf) 1112
  [1032] .leaf) 1113 [1033] (.node (.node .leaf 1114 [1034] .leaf) 1115 [1035] .leaf)))) 1116 [1036]
  (.node (.node (.node (.node (.node .leaf 1117 [1037] .leaf) 1118 [1038] .leaf) 1119 [1039] (.node
  (.node .leaf 1121 [1120] .leaf) 1123 [1122] .leaf)) 1125 [1124] (.node (.node (.node .leaf 1127
  [1126] .leaf) 1129 [1128] .leaf) 1131 [1130] (.node (.node .leaf 1133 [1132] .leaf) 1135 [1134]
  .leaf))) 1137 [1136] (.node (.node (.node (.node .leaf 1139 [1138] .leaf) 1141 [1140] .leaf) 1143
  [1142] (.node (.node .leaf 1145 [1144] .leaf) 1147 [1146] .leaf)) 1149 [1148] (.node (.node (.node
  .leaf 1151 [1150] .leaf) 1153 [1152] .leaf) 1163 [1162] (.node .leaf 1165 [1164] .leaf))))))))
  1167 [1166] (.node (.node (.node (.node (.node (.node (.node (.node (.node .leaf 1169 [1168]
  .leaf) 1171 [1170] .leaf) 1173 [1172] (.node (.node .leaf 1175 [1174] .leaf) 1177 [1176] .leaf))
  1179 [1178] (.node (.node (.node .leaf 1181 [1180] .leaf) 1183 [1182] .leaf) 1185 [1184] (.node
  (.node .leaf 1187 [1186] .leaf) 1189 [1188] .leaf))) 1191 [1190] (.node (.node (.node (.node .leaf
  1193 [1192] .leaf) 1195 [1194] .leaf) 1197 [1196] (.node (.node .leaf 1199 [1198] .leaf) 1201
  [1200] .leaf)) 1203 [1202] (.node (.node (.node .leaf 1205 [1204] .leaf) 1207 [1206] .leaf) 1209
  [1208] (.node (.node .leaf 1211 [1210] .leaf) 1213 [1212] .leaf)))) 1215 [1214] (.node (.node
  (.node (.node (.node .leaf 1218 [1217] .leaf) 1220 [1219] .leaf) 1222 [1221] (.node (.node .leaf
  1224 [1223] .leaf) 1226 [1225] .leaf)) 1228 [1227] (.node (.node (.node .leaf 1230 [1229] .leaf)
  1231 [1216] .leaf) 1233 [1232] (.node (.node .leaf 1235 [1234] .leaf) 1237 [1236] .leaf))) 1239
  [1238] (.node (.node (.node (.node .leaf 1241 [1240] .leaf) 1243 [1242] .leaf) 1245 [1244] (.node
  (.node .leaf 1247 [1246] .leaf) 1249 [1248] .leaf)) 1251 [1250] (.node (.node (.node .leaf 1253
  [1252] .leaf) 1255 [1254] .leaf) 1257 [1256] (.node (.node .leaf 1259 [1258] .leaf) 1261 [1260]
  .leaf))))) 1263 [1262] (.node (.node (.node (.node (.node (.node .leaf 1265 [1264] .leaf) 1267
  [1266] .leaf) 1269 [1268] (.node (.node .leaf 1271 [1270] .leaf) 1273 [1272] .leaf)) 1275 [1274]
  (.node (.node (.node .leaf 1277 [1276] .leaf) 1279 [1278] .leaf) 1281 [1280] (.node (.node .leaf
  1283 [1282] .leaf) 1285 [1284] .leaf))) 1287 [1286] (.node (.node (.node (.node .leaf 1289 [1288]
  .leaf) 1291 [1290] .leaf) 1293 [1292] (.node (.node .leaf 1295 [1294] .leaf) 1297 [1296] .leaf))
  1299 [1298] (.node (.node (.node .leaf 1301 [1300] .leaf) 1303 [1302] .leaf) 1305 [1304] (.node
  (.node .leaf 1307 [1306] .leaf) 1309 [1308] .leaf)))) 1311 [1310] (.node (.node (.node (.node
  (.node .leaf 1313 [1312] .leaf) 1315 [1314] .leaf) 1317 [1316] (.node (.node .leaf 1319 [1318]
  .leaf) 1321 [1320] .leaf)) 1323 [1322] (.node (.node (.node .leaf 1325 [1324] .leaf) 1327 [1326]
  .leaf) 1377 [1329] (.node (.node .leaf 1378 [1330] .leaf) 1379 [1331] .leaf))) 1380 [1332] (.node
  (.node (.node (.node .leaf 1381 [1333] .leaf) 1382 [1334] .leaf) 1383 [1335] (.node (.node .leaf
  1384 [1336] .leaf) 1385 [1337] .leaf)) 1386 [1338] (.node (.node (.node .leaf 1387 [1339] .leaf)
  1388 [1340] .leaf) 1389 [1341] (.node (.node .leaf 1390 [1342] .leaf) 1391 [1343] .leaf)))))) 1392
  [1344] (.node (.node (.node (.node (.node (.node (.node .leaf 1393 [1345] .leaf) 1394 [1346]
  .leaf) 1395 [1347] (.node (.node .leaf 1396 [1348] .leaf) 1397 [1349] .leaf)) 1398 [1350] (.node
  (.node (.node .leaf 1399 [1351] .leaf) 1400 [1352] .leaf) 1401 [1353] (.node (.node .leaf 1402
  [1354] .leaf) 1403 [1355] .leaf))) 1404 [1356] (.node (.node (.node (.node .leaf 1405 [1357]
  .leaf) 1406 [1358] .leaf) 1407 [1359] (.node (.node .leaf 1408 [1360] .leaf) 1409 [1361] .leaf))
  1410 [1362] (.node (.node (.node .leaf 1411 [1363] .leaf) 1412 [1364] .leaf) 1413 [1365] (.node
  (.node .leaf 1414 [1366] .leaf) 1415 [1333, 1362] .leaf)))) 4304 [7312] (.node (.node (.node
  (.node (.node .leaf 4305 [7313] .leaf) 4306 [7314] .leaf) 4307 [7315] (.node (.node .leaf 4308
  [7316] .leaf) 4309 [7317] .leaf)) 4310 [7318] (.node (.node (.node .leaf 4311 [7319] .leaf) 4312
  [7320] .leaf) 4313 [7321] (.node (.node .leaf 4314 [7322] .leaf) 4315 [7323] .leaf))) 4316 [7324]
  (.node (.node (.node (.node .leaf 4317 [7325] .leaf) 4318 [7326] .leaf) 4319 [7327] (.node (.node
  .leaf 4320 [7328] .leaf) 4321 [7329] .leaf)) 4322 [7330] (.node (.node (.node .leaf 4323 [7331]
  .leaf) 4324 [7332] .leaf) 4325 [7333] (.node (.node .leaf 4326 [7334] .leaf) 4327 [7335]
  .leaf))))) 4328 [7336] (.node (.node (.node (.node (.node (.node .leaf 4329 [7337] .leaf) 4330
  [7338] .leaf) 4331 [7339] (.node (.node .leaf 4332 [7340] .leaf) 4333 [7341] .leaf)) 4334 [7342]
  (.node (.node (.node .leaf 4335 [7343] .leaf) 4336 [7344] .leaf) 4337 [7345] (.node (.node .leaf
  4338 [7346] .leaf) 4339 [7347] .leaf))) 4340 [7348] (.node (.node (.node (.node .leaf 4341 [7349]
  .leaf) 4342 [7350] .leaf) 4343 [7351] (.node (.node .leaf 4344 [7352] .leaf) 4345 [7353] .leaf))
  4346 [7354] (.node (.node (.node .leaf 4349 [7357] .leaf) 4350 [7358] .leaf) 4351 [7359] (.node
  (.node .leaf 5112 [5104] .leaf) 5113 [5105] .leaf)))) 5114 [5106] (.node (.node (.node (.node
  (.node .leaf 5115 [5107] .leaf) 5116 [5108] .leaf) 5117 [5109] (.node (.node .leaf 7296 [1042]
  .leaf) 7297 [1044] .leaf)) 7298 [1054] (.node (.node (.node .leaf 7299 [1057] .leaf) 7300 [1058]
  .leaf) 7301 [1058] (.node (.node .leaf 7302 [1066] .leaf) 7303 [1122] .leaf))) 7304 [42570] (.node
  (.node (.node (.node .leaf 7545 [42877] .leaf) 7549 [11363] .leaf) 7566 [42950] (.node (.node
  .leaf 7681 [7680] .leaf) 7683 [7682] .leaf)) 7685 [7684] (.node (.node (.node .leaf 7687 [7686]
  .leaf) 7689 [7688] .leaf) 7691 [7690] (.node .leaf 7693 [7692] .leaf))))))) 7695 [7694] (.node
  (.node (.node (.node (.node (.node (.node (.node .leaf 7697 [7696] .leaf) 7699 [7698] .leaf) 7701
  [7700] (.node (.node .leaf 7703 [7702] .leaf) 7705 [7704] .leaf)) 7707 [7706] (.node (.node (.node
  .leaf 7709 [7708] .leaf) 7711 [7710] .leaf) 7713 [7712] (.node (.node .leaf 7715 [7714] .leaf)
  7717 [7716] .leaf))) 7719 [7718] (.node (.node (.node (.node .leaf 7721 [7720] .leaf) 7723 [7722]
  .leaf) 7725 [7724] (.node (.node .leaf 7727 [7726] .leaf) 7729 [7728] .leaf)) 7731 [7730] (.node
  (.node (.node .leaf 7733 [7732] .leaf) 7735 [7734] .leaf) 7737 [7736] (.node (.node .leaf 7739
  [7738] .leaf) 7741 [7740] .leaf)))) 7743 [7742] (.node (.node (.node (.node (.node .leaf 7745
  [7744] .leaf) 7747 [7746] .leaf) 7749 [7748] (.node (.node .leaf 7751 [7750] .leaf) 7753 [7752]
  .leaf)) 7755 [7754] (.node (.node (.node .leaf 7757 [7756] .leaf) 7759 [7758] .leaf) 7761 [7760]
  (.node (.node .leaf 7763 [7762] .leaf) 7765 [7764] .leaf))) 7767 [7766] (.node (.node (.node
  (.node .leaf 7769 [7768] .leaf) 7771 [7770] .leaf) 7773 [7772] (.node (.node .leaf 7775 [7774]
  .leaf) 7777 [7776] .leaf)) 7779 [7778] (.node (.node (.node .leaf 7781 [7780] .leaf) 7783 [7782]
  .leaf) 7785 [7784] (.node (.node .leaf 7787 [7786] .leaf) 7789 [7788] .leaf))))) 7791 [7790]
  (.node (.node (.node (.node (.node (.node .leaf 7793 [7792] .leaf) 7795 [7794] .leaf) 7797 [7796]
  (.node (.node .leaf 7799 [7798] .leaf) 7801 [7800] .leaf)) 7803 [7802] (.node (.node (.node .leaf
  7805 [7804] .leaf) 7807 [7806] .leaf) 7809 [7808] (.node (.node .leaf 7811 [7810] .leaf) 7813
  [7812] .leaf))) 7815 [7814] (.node (.node (.node (.node .leaf 7817 [7816] .leaf) 7819 [7818]
  .leaf) 7821 [7820] (.node (.node .leaf 7823 [7822] .leaf) 7825 [7824] .leaf)) 7827 [7826] (.node
  (.node (.node .leaf 7829 [7828] .leaf) 7830 [72, 817] .leaf) 7831 [84, 776] (.node (.node .leaf
  7832 [87, 778] .leaf) 7833 [89, 778] .leaf)))) 7834 [65, 702] (.node (.node (.node (.node (.node
  .leaf 7835 [7776] .leaf) 7841 [7840] .leaf) 7843 [7842] (.node (.node .leaf 7845 [7844] .leaf)
  7847 [7846] .leaf)) 7849 [7848] (.node (.node (.node .leaf 7851 [7850] .leaf) 7853 [7852] .leaf)
  7855 [7854] (.node (.node .leaf 7857 [7856] .leaf) 7859 [7858] .leaf))) 7861 [7860] (.node (.node
  (.node (.node .leaf 7863 [7862] .leaf) 7865 [7864] .leaf) 7867 [7866] (.node (.node .leaf 7869
  [7868] .leaf) 7871 [7870] .leaf)) 7873 [7872] (.node (.node (.node .leaf 7875 [7874] .leaf) 7877
  [7876] .leaf) 7879 [7878] (.node .leaf 7881 [7880] .leaf)))))) 7883 [7882] (.node (.node (.node
  (.node (.node (.node (.node .leaf 7885 [7884] .leaf) 7887 [7886] .leaf) 7889 [7888] (.node (.node
  .leaf 7891 [7890] .leaf) 7893 [7892] .leaf)) 7895 [7894] (.node (.node (.node .leaf 7897 [7896]
  .leaf) 7899 [7898] .leaf) 7901 [7900] (.node (.node .leaf 7903 [7902] .leaf) 7905 [7904] .leaf)))
  7907 [7906] (.node (.node (.node (.node .leaf 7909 [7908] .leaf) 7911 [7910] .leaf) 7913 [7912]
  (.node (.node .leaf 7915 [7914] .leaf) 7917 [7916] .leaf)) 7919 [7918] (.node (.node (.node .leaf
  7921 [7920] .leaf) 7923 [7922] .leaf) 7925 [7924] (.node (.node .leaf 7927 [7926] .leaf) 7929
  [7928] .leaf)))) 7931 [7930] (.node (.node (.node (.node (.node .leaf 7933 [7932] .leaf) 7935
  [7934] .leaf) 7936 [7944] (.node (.node .leaf 7937 [7945] .leaf) 7938 [7946] .leaf)) 7939 [7947]
  (.node (.node (.node .leaf 7940 [7948] .leaf) 7941 [7949] .leaf) 7942 [7950] (.node (.node .leaf
  7943 [7951] .leaf) 7952 [7960] .leaf))) 7953 [7961] (.node (.node (.node (.node .leaf 7954 [7962]
  .leaf) 7955 [7963] .leaf) 7956 [7964] (.node (.node .leaf 7957 [7965] .leaf) 7968 [7976] .leaf))
  7969 [7977] (.node (.node (.node .leaf 7970 [7978] .leaf) 7971 [7979] .leaf) 7972 [7980] (.node
  (.node .leaf 7973 [7981] .leaf) 7974 [7982] .leaf))))) 7975 [7983] (.node (.node (.node (.node
  (.node (.node .leaf 7984 [7992] .leaf) 7985 [7993] .leaf) 7986 [7994] (.node (.node .leaf 7987
  [7995] .leaf) 7988 [7996] .leaf)) 7989 [7997] (.node (.node (.node .leaf 7990 [7998] .leaf) 7991
  [7999] .leaf) 8000 [8008] (.node (.node .leaf 8001 [8009] .leaf) 8002 [8010] .leaf))) 8003 [8011]
  (.node (.node (.node (.node .leaf 8004 [8012] .leaf) 8005 [8013] .leaf) 8016 [933, 787] (.node
  (.node .leaf 8017 [8025] .leaf) 8018 [933, 787, 768] .leaf)) 8019 [8027] (.node (.node (.node
  .leaf 8020 [933, 787, 769] .leaf) 8021 [8029] .leaf) 8022 [933, 787, 834] (.node (.node .leaf 8023
  [8031] .leaf) 8032 [8040] .leaf)))) 8033 [8041] (.node (.node (.node (.node (.node .leaf 8034
  [8042] .leaf) 8035 [8043] .leaf) 8036 [8044] (.node (.node .leaf 8037 [8045] .leaf) 8038 [8046]
  .leaf)) 8039 [8047] (.node (.node (.node .leaf 8048 [8122] .leaf) 8049 [8123] .leaf) 8050 [8136]
  (.node (.node .leaf 8051 [8137] .leaf) 8052 [8138] .leaf))) 8053 [8139] (.node (.node (.node
  (.node .leaf 8054 [8154] .leaf) 8055 [8155] .leaf) 8056 [8184] (.node (.node .leaf 8057 [8185]
  .leaf) 8058 [8170] .leaf)) 8059 [8171] (.node (.node (.node .leaf 8060 [8186] .leaf) 8061 [8187]
  .leaf) 8064 [7944, 921] (.node .leaf 8065 [7945, 921] .leaf))))))))) 8066 [7946, 921] (.node
  (.node (.node (.node (.node (.node (.node (.node (.node (.node .leaf 8067 [7947, 921] .leaf) 8068
  [7948, 921] .leaf) 8069 [7949, 921] (.node (.node .leaf 8070 [7950, 921] .leaf) 8071 [7951, 921]
  .leaf)) 8072 [7944, 921] (.node (.node (.node .leaf 8073 [7945, 921] .leaf) 8074 [7946, 921]
  .leaf) 8075 [7947, 921] (.node (.node .leaf 8076 [7948, 921] .leaf) 8077 [7949, 921] .leaf))) 8078
  [7950, 921] (.node (.node (.node (.node .leaf 8079 [7951, 921] .leaf) 8080 [7976, 921] .leaf) 8081
  [7977, 921] (.node (.node .leaf 8082 [7978, 921] .leaf) 8083 [7979, 921] .leaf)) 8084 [7980, 921]
  (.node (.node (.node .leaf 8085 [7981, 921] .leaf) 8086 [7982, 921] .leaf) 8087 [7983, 921] (.node
  (.node .leaf 8088 [7976, 921] .leaf) 8089 [7977, 921] .leaf)))) 8090 [7978, 921] (.node (.node
  (.node (.node (.node .leaf 8091 [7979, 921] .leaf) 8092 [7980, 921] .leaf) 8093 [7981, 921] (.node
  (.node .leaf 8094 [7982, 921] .leaf) 8095 [7983, 921] .leaf)) 8096 [8040, 921] (.node (.node
  (.node .leaf 8097 [8041, 921] .leaf) 8098 [8042, 921] .leaf) 8099 [8043, 921] (.node (.node .leaf
  8100 [8044, 921] .leaf) 8101 [8045, 921] .leaf))) 8102 [8046, 921] (.node (.node (.node (.node
  .leaf 8103 [8047, 921] .leaf) 8104 [8040, 921] .leaf) 8105 [8041, 921] (.node (.node .leaf 8106
  [8042, 921] .leaf) 8107 [8043, 921] .leaf)) 8108 [8044, 921] (.node (.node (.node .leaf 8109
  [8045, 921] .leaf) 8110 [8046, 921] .leaf) 8111 [8047, 921] (.node (.node .leaf 8112 [8120] .leaf)
  8113 [8121] .leaf))))) 8114 [8122, 921] (.node (.node (.node (.node (.node (.node .leaf 8115 [913,
  921] .leaf) 8116 [902, 921] .leaf) 8118 [913, 834] (.node (.node .leaf 8119 [913, 834, 921] .leaf)
  8124 [913, 921] .leaf)) 8126 [921] (.node (.node (.node .leaf 8130 [8138, 921] .leaf) 8131 [919,
  921] .leaf) 8132 [905, 921] (.node (.node .leaf 8134 [919, 834] .leaf) 8135 [919, 834, 921]
  .leaf))) 8140 [919, 921] (.node (.node (.node (.node .leaf 8144 [8152] .leaf) 8145 [8153] .leaf)
  8146 [921, 776, 768] (.node (.node .leaf 8147 [921, 776, 769] .leaf) 8150 [921, 834] .leaf)) 8151
  [921, 776, 834] (.node (.node (.node .leaf 8160 [8168] .leaf) 8161 [8169] .leaf) 8162 [933, 776,
  768] (.node (.node .leaf 8163 [933, 776, 769] .leaf) 8164 [929, 787] .leaf)))) 8165 [8172] (.node
  (.node (.node (.node (.node .leaf 8166 [933, 834] .leaf) 8167 [933, 776, 834] .leaf) 8178 [8186,
  921] (.node (.node .leaf 8179 [937, 921] .leaf) 8180 [911, 921] .leaf)) 8182 [937, 834] (.node
  (.node (.node .leaf 8183 [937, 834, 921] .leaf) 8188 [937, 921] .leaf) 8526 [8498] (.node (.node
  .leaf 8560 [8544] .leaf) 8561 [8545] .leaf))) 8562 [8546] (.node (.node (.node (.node .leaf 8563
  [8547] .leaf) 8564 [8548] .leaf) 8565 [8549] (.node (.node .leaf 8566 [8550] .leaf) 8567 [8551]
  .leaf)) 8568 [8552] (.node (.node (.node .leaf 8569 [8553] .leaf) 8570 [8554] .leaf) 8571 [8555]
  (.node (.node .leaf 8572 [8556] .leaf) 8573 [8557] .leaf)))))) 8574 [8558] (.node (.node (.node
  (.node (.node (.node (.node .leaf 8575 [8559] .leaf) 8580 [8579] .leaf) 9424 [9398] (.node (.node
  .leaf 9425 [9399] .leaf) 9426 [9400] .leaf)) 9427 [9401] (.node (.node (.node .leaf 9428 [9402]
  .leaf) 9429 [9403] .leaf) 9430 [9404] (.node (.node .leaf 9431 [9405] .leaf) 9432 [9406] .leaf)))
  9433 [9407] (.node (.node (.node (.node .leaf 9434 [9408] .leaf) 9435 [9409] .leaf) 9436 [9410]
  (.node (.node .leaf 9437 [9411] .leaf) 9438 [9412] .leaf)) 9439 [9413] (.node (.node (.node .leaf
  9440 [9414] .leaf) 9441 [9415] .leaf) 9442 [9416] (.node (.node .leaf 9443 [9417] .leaf) 9444
  [9418] .leaf)))) 9445 [9419] (.node (.node (.node (.node (.node .leaf 9446 [9420] .leaf) 9447
  [9421] .leaf) 9448 [9422] (.node (.node .leaf 9449 [9423] .leaf) 11312 [11264] .leaf)) 11313
  [11265] (.node (.node (.node .leaf 11314 [11266] .leaf) 11315 [11267] .leaf) 11316 [11268] (.node
  (.node .leaf 11317 [11269] .leaf) 11318 [11270] .leaf))) 11319 [11271] (.node (.node (.node (.node
  .leaf 11320 [11272] .leaf) 11321 [11273] .leaf) 11322 [11274] (.node (.node .leaf 11323 [11275]
  .leaf) 11324 [11276] .leaf)) 11325 [11277] (.node (.node (.node .leaf 11326 [11278] .leaf) 11327
  [11279] .leaf) 11328 [11280] (.node (.node .leaf 11329 [11281] .leaf) 11330 [11282] .leaf)))))
  11331 [11283] (.node (.node (.node (.node (.node (.node .leaf 11332 [11284] .leaf) 11333 [11285]
  .leaf) 11334 [11286] (.node (.node .leaf 11335 [11287] .leaf) 11336 [11288] .leaf)) 11337 [11289]
  (.node (.node (.node .leaf 11338 [11290] .leaf) 11339 [11291] .leaf) 11340 [11292] (.node (.node
  .leaf 11341 [11293] .leaf) 11342 [11294] .leaf))) 11343 [11295] (.node (.node (.node (.node .leaf
  11344 [11296] .leaf) 11345 [11297] .leaf) 11346 [11298] (.node (.node .leaf 11347 [11299] .leaf)
  11348 [11300] .leaf)) 11349 [11301] (.node (.node (.node .leaf 11350 [11302] .leaf) 11351 [11303]
  .leaf) 11352 [11304] (.node (.node .leaf 11353 [11305] .leaf) 11354 [11306] .leaf)))) 11355
  [11307] (.node (.node (.node (.node (.node .leaf 11356 [11308] .leaf) 11357 [11309] .leaf) 11358
  [11310] (.node (.node .leaf 11359 [11311] .leaf) 11361 [11360] .leaf)) 11365 [570] (.node (.node
  (.node .leaf 11366 [574] .leaf) 11368 [11367] .leaf) 11370 [11369] (.node (.node .leaf 11372
  [11371] .leaf) 11379 [11378] .leaf))) 11382 [11381] (.node (.node (.node (.node .leaf 11393
  [11392] .leaf) 11395 [11394] .leaf) 11397 [11396] (.node (.node .leaf 11399 [11398] .leaf) 11401
  [11400] .leaf)) 11403 [11402] (.node (.node (.node .leaf 11405 [11404] .leaf) 11407 [11406] .leaf)
  11409 [11408] (.node .leaf 11411 [11410] .leaf))))))) 11413 [11412] (.node (.node (.node (.node
  (.node (.node (.node (.node .leaf 11415 [11414] .leaf) 11417 [11416] .leaf) 11419 [11418] (.node
  (.node .leaf 11421 [11420] .leaf) 11423 [11422] .leaf)) 11425 [11424] (.node (.node (.node .leaf
  11427 [11426] .leaf) 11429 [11428] .leaf) 11431 [11430] (.node (.node .leaf 11433 [11432] .leaf)
  11435 [11434] .leaf))) 11437 [11436] (.node (.node (.node (.node .leaf 11439 [11438] .leaf) 11441
  [11440] .leaf) 11443 [11442] (.node (.node .leaf 11445 [11444] .leaf) 11447 [11446] .leaf)) 11449
  [11448] (.node (.node (.node .leaf 11451 [11450] .leaf) 11453 [11452] .leaf) 11455 [11454] (.node
  (.node .leaf 11457 [11456] .leaf) 11459 [11458] .leaf)))) 11461 [11460] (.node (.node (.node
  (.node (.node .leaf 11463 [11462] .leaf) 11465 [11464] .leaf) 11467 [11466] (.node (.node .leaf
  11469 [11468] .leaf) 11471 [11470] .leaf)) 11473 [11472] (.node (.node (.node .leaf 11475 [11474]
  .leaf) 11477 [11476] .leaf) 11479 [11478] (.node (.node .leaf 11481 [11480] .leaf) 11483 [11482]
  .leaf))) 11485 [11484] (.node (.node (.node (.node .leaf 11487 [11486] .leaf) 11489 [11488] .leaf)
  11491 [11490] (.node (.node .leaf 11500 [11499] .leaf) 11502 [11501] .leaf)) 11507 [11506] (.node
  (.node (.node .leaf 11520 [4256] .leaf) 11521 [4257] .leaf) 11522 [4258] (.node (.node .leaf 11523
  [4259] .leaf) 11524 [4260] .leaf))))) 11525 [4261] (.node (.node (.node (.node (.node (.node .leaf
  11526 [4262] .leaf) 11527 [4263] .leaf) 11528 [4264] (.node (.node .leaf 11529 [4265] .leaf) 11530
  [4266] .leaf)) 11531 [4267] (.node (.node (.node .leaf 11532 [4268] .leaf) 11533 [4269] .leaf)
  11534 [4270] (.node (.node .leaf 11535 [4271] .leaf) 11536 [4272] .leaf))) 11537 [4273] (.node
  (.node (.node (.node .leaf 11538 [4274] .leaf) 11539 [4275] .leaf) 11540 [4276] (.node (.node
  .leaf 11541 [4277] .leaf) 11542 [4278] .leaf)) 11543 [4279] (.node (.node (.node .leaf 11544
  [4280] .leaf) 11545 [4281] .leaf) 11546 [4282] (.node (.node .leaf 11547 [4283] .leaf) 11548
  [4284] .leaf)))) 11549 [4285] (.node (.node (.node (.node (.node .leaf 11550 [4286] .leaf) 11551
  [4287] .leaf) 11552 [4288] (.node (.node .leaf 11553 [4289] .leaf) 11554 [4290] .leaf)) 11555
  [4291] (.node (.node (.node .leaf 11556 [4292] .leaf) 11557 [4293] .leaf) 11559 [4295] (.node
  (.node .leaf 11565 [4301] .leaf) 42561 [42560] .leaf))) 42563 [42562] (.node (.node (.node (.node
  .leaf 42565 [42564] .leaf) 42567 [42566] .leaf) 42569 [42568] (.node (.node .leaf 42571 [42570]
  .leaf) 42573 [42572] .leaf)) 42575 [42574] (.node (.node (.node .leaf 42577 [42576] .leaf) 42579
  [42578] .leaf) 42581 [42580] (.node (.node .leaf 42583 [42582] .leaf) 42585 [42584] .leaf))))))
  42587 [42586] (.node (.node (.node (.node (.node (.node (.node .leaf 42589 [42588] .leaf) 42591
  [42590] .leaf) 42593 [42592] (.node (.node .leaf 42595 [42594] .leaf) 42597 [42596] .leaf)) 42599
  [42598] (.node (.node (.node .leaf 42601 [42600] .leaf) 42603 [42602] .leaf) 42605 [42604] (.node
  (.node .leaf 42625 [42624] .leaf) 42627 [42626] .leaf))) 42629 [42628] (.node (.node (.node (.node
  .leaf 42631 [42630] .leaf) 42633 [42632] .leaf) 42635 [42634] (.node (.node .leaf 42637 [42636]
  .leaf) 42639 [42638] .leaf)) 42641 [42640] (.node (.node (.node .leaf 42643 [42642] .leaf) 42645
  [42644] .leaf) 42647 [42646] (.node (.node .leaf 42649 [42648] .leaf) 42651 [42650] .leaf))))
  42787 [42786] (.node (.node (.node (.node (.node .leaf 42789 [42788] .leaf) 42791 [42790] .leaf)
  42793 [42792] (.node (.node .leaf 42795 [42794] .leaf) 42797 [42796] .leaf)) 42799 [42798] (.node
  (.node (.node .leaf 42803 [42802] .leaf) 42805 [42804] .leaf) 42807 [42806] (.node (.node .leaf
  42809 [42808] .leaf) 42811 [42810] .leaf))) 42813 [42812] (.node (.node (.node (.node .leaf 42815
  [42814] .leaf) 42817 [42816] .leaf) 42819 [42818] (.node (.node .leaf 42821 [42820] .leaf) 42823
  [42822] .leaf)) 42825 [42824] (.node (.node (.node .leaf 42827 [42826] .leaf) 42829 [42828] .leaf)
  42831 [42830] (.node (.node .leaf 42833 [42832] .leaf) 42835 [42834] .leaf))))) 42837 [42836]
  (.node (.node (.node (.node (.node (.node .leaf 42839 [42838] .leaf) 42841 [42840] .leaf) 42843
  [42842] (.node (.node .leaf 42845 [42844] .leaf) 42847 [42846] .leaf)) 42849 [42848] (.node (.node
  (.node .leaf 42851 [42850] .leaf) 42853 [42852] .leaf) 42855 [42854] (.node (.node .leaf 42857
  [42856] .leaf) 42859 [42858] .leaf))) 42861 [42860] (.node (.node (.node (.node .leaf 42863
  [42862] .leaf) 42874 [42873] .leaf) 42876 [42875] (.node (.node .leaf 42879 [42878] .leaf) 42881
  [42880] .leaf)) 42883 [42882] (.node (.node (.node .leaf 42885 [42884] .leaf) 42887 [42886] .leaf)
  42892 [42891] (.node (.node .leaf 42897 [42896] .leaf) 42899 [42898] .leaf)))) 42900 [42948]
  (.node (.node (.node (.node (.node .leaf 42903 [42902] .leaf) 42905 [42904] .leaf) 42907 [42906]
  (.node (.node .leaf 42909 [42908] .leaf) 42911 [42910] .leaf)) 42913 [42912] (.node (.node (.node
  .leaf 42915 [42914] .leaf) 42917 [42916] .leaf) 42919 [42918] (.node (.node .leaf 42921 [42920]
  .leaf) 42933 [42932] .leaf))) 42935 [42934] (.node (.node (.node (.node .leaf 42937 [42936] .leaf)
  42939 [42938] .leaf) 42941 [42940] (.node (.node .leaf 42943 [42942] .leaf) 42945 [42944] .leaf))
  42947 [42946] (.node (.node (.node .leaf 42952 [42951] .leaf) 42954 [42953] .leaf) 42961 [42960]
  (.node .leaf 42967 [42966] .leaf)))))))) 42969 [42968] (.node (.node (.node (.node (.node (.node
  (.node (.node (.node .leaf 42998 [42997] .leaf) 43859 [42931] .leaf) 43888 [5024] (.node (.node
  .leaf 43889 [5025] .leaf) 43890 [5026] .leaf)) 43891 [5027] (.node (.node (.node .leaf 43892
  [5028] .leaf) 43893 [5029] .leaf) 43894 [5030] (.node (.node .leaf 43895 [5031] .leaf) 43896
  [5032] .leaf))) 43897 [5033] (.node (.node (.node (.node .leaf 43898 [5034] .leaf) 43899 [5035]
  .leaf) 43900 [5036] (.node (.node .leaf 43901 [5037] .leaf) 43902 [5038] .leaf)) 43903 [5039]
  (.node (.node (.node .leaf 43904 [5040] .leaf) 43905 [5041] .leaf) 43906 [5042] (.node (.node
  .leaf 43907 [5043] .leaf) 43908 [5044] .leaf)))) 43909 [5045] (.node (.node (.node (.node (.node
  .leaf 43910 [5046] .leaf) 43911 [5047] .leaf) 43912 [5048] (.node (.node .leaf 43913 [5049] .leaf)
  43914 [5050] .leaf)) 43915 [5051] (.node (.node (.node .leaf 43916 [5052] .leaf) 43917 [5053]
  .leaf) 43918 [5054] (.node (.node .leaf 43919 [5055] .leaf) 43920 [5056] .leaf))) 43921 [5057]
  (.node (.node (.node (.node .leaf 43922 [5058] .leaf) 43923 [5059] .leaf) 43924 [5060] (.node
  (.node .leaf 43925 [5061] .leaf) 43926 [5062] .leaf)) 43927 [5063] (.node (.node (.node .leaf
  43928 [5064] .leaf) 43929 [5065] .leaf) 43930 [5066] (.node (.node .leaf 43931 [5067] .leaf) 43932
  [5068] .leaf))))) 43933 [5069] (.node (.node (.node (.node (.node (.node .leaf 43934 [5070] .leaf)
  43935 [5071] .leaf) 43936 [5072] (.node (.node .leaf 43937 [5073] .leaf) 43938 [5074] .leaf))
  43939 [5075] (.node (.node (.node .leaf 43940 [5076] .leaf) 43941 [5077] .leaf) 43942 [5078]
  (.node (.node .leaf 43943 [5079] .leaf) 43944 [5080] .leaf))) 43945 [5081] (.node (.node (.node
  (.node .leaf 43946 [5082] .leaf) 43947 [5083] .leaf) 43948 [5084] (.node (.node .leaf 43949 [5085]
  .leaf) 43950 [5086] .leaf)) 43951 [5087] (.node (.node (.node .leaf 43952 [5088] .leaf) 43953
  [5089] .leaf) 43954 [5090] (.node (.node .leaf 43955 [5091] .leaf) 43956 [5092] .leaf)))) 43957
  [5093] (.node (.node (.node (.node (.node .leaf 43958 [5094] .leaf) 43959 [5095] .leaf) 43960
  [5096] (.node (.node .leaf 43961 [5097] .leaf) 43962 [5098] .leaf)) 43963 [5099] (.node (.node
  (.node .leaf 43964 [5100] .leaf) 43965 [5101] .leaf) 43966 [5102] (.node (.node .leaf 43967 [5103]
  .leaf) 64256 [70, 70] .leaf))) 64257 [70, 73] (.node (.node (.node (.node .leaf 64258 [70, 76]
  .leaf) 64259 [70, 70, 73] .leaf) 64260 [70, 70, 76] (.node (.node .leaf 64261 [83, 84] .leaf)
  64262 [83, 84] .leaf)) 64275 [1348, 1350] (.node (.node (.node .leaf 64276 [1348, 1333] .leaf)
  64277 [1348, 1339] .leaf) 64278 [1358, 1350] (.node (.node .leaf 64279 [1348, 1341] .leaf) 65345
  [65313] .leaf)))))) 65346 [65314] (.node (.node (.node (.node (.node (.node (.node .leaf 65347
  [65315] .leaf) 65348 [65316] .leaf) 65349 [65317] (.node (.node .leaf 65350 [65318] .leaf) 65351
  [65319] .leaf)) 65352 [65320] (.node (.node (.node .leaf 65353 [65321] .leaf) 65354 [65322] .leaf)
  65355 [65323] (.node (.node .leaf 65356 [65324] .leaf) 65357 [65325] .leaf))) 65358 [65326] (.node
  (.node (.node (.node .leaf 65359 [65327] .leaf) 65360 [65328] .leaf) 65361 [65329] (.node (.node
  .leaf 65362 [65330] .leaf) 65363 [65331] .leaf)) 65364 [65332] (.node (.node (.node .leaf 65365
  [65333] .leaf) 65366 [65334] .leaf) 65367 [65335] (.node (.node .leaf 65368 [65336] .leaf) 65369
  [65337] .leaf)))) 65370 [65338] (.node (.node (.node (.node (.node .leaf 66600 [66560] .leaf)
  66601 [66561] .leaf) 66602 [66562] (.node (.node .leaf 66603 [66563] .leaf) 66604 [66564] .leaf))
  66605 [66565] (.node (.node (.node .leaf 66606 [66566] .leaf) 66607 [66567] .leaf) 66608 [66568]
  (.node (.node .leaf 66609 [66569] .leaf) 66610 [66570] .leaf))) 66611 [66571] (.node (.node (.node
  (.node .leaf 66612 [66572] .leaf) 66613 [66573] .leaf) 66614 [66574] (.node (.node .leaf 66615
  [66575] .leaf) 66616 [66576] .leaf)) 66617 [66577] (.node (.node (.node .leaf 66618 [66578] .leaf)
  66619 [66579] .leaf) 66620 [66580] (.node (.node .leaf 66621 [66581] .leaf) 66622 [66582]
  .leaf))))) 66623 [66583] (.node (.node (.node (.node (.node (.node .leaf 66624 [66584] .leaf)
  66625 [66585] .leaf) 66626 [66586] (.node (.node .leaf 66627 [66587] .leaf) 66628 [66588] .leaf))
  66629 [66589] (.node (.node (.node .leaf 66630 [66590] .leaf) 66631 [66591] .leaf) 66632 [66592]
  (.node (.node .leaf 66633 [66593] .leaf) 66634 [66594] .leaf))) 66635 [66595] (.node (.node (.node
  (.node .leaf 66636 [66596] .leaf) 66637 [66597] .leaf) 66638 [66598] (.node (.node .leaf 66639
  [66599] .leaf) 66776 [66736] .leaf)) 66777 [66737] (.node (.node (.node .leaf 66778 [66738] .leaf)
  66779 [66739] .leaf) 66780 [66740] (.node (.node .leaf 66781 [66741] .leaf) 66782 [66742]
  .leaf)))) 66783 [66743] (.node (.node (.node (.node (.node .leaf 66784 [66744] .leaf) 66785
  [66745] .leaf) 66786 [66746] (.node (.node .leaf 66787 [66747] .leaf) 66788 [66748] .leaf)) 66789
  [66749] (.node (.node (.node .leaf 66790 [66750] .leaf) 66791 [66751] .leaf) 66792 [66752] (.node
  (.node .leaf 66793 [66753] .leaf) 66794 [66754] .leaf))) 66795 [66755] (.node (.node (.node (.node
  .leaf 66796 [66756] .leaf) 66797 [66757] .leaf) 66798 [66758] (.node (.node .leaf 66799 [66759]
  .leaf) 66800 [66760] .leaf)) 66801 [66761] (.node (.node (.node .leaf 66802 [66762] .leaf) 66803
  [66763] .leaf) 66804 [66764] (.node .leaf 66805 [66765] .leaf))))))) 66806 [66766] (.node (.node
  (.node (.node (.node (.node (.node (.node .leaf 66807 [66767] .leaf) 66808 [66768] .leaf) 66809
  [66769] (.node (.node .leaf 66810 [66770] .leaf) 66811 [66771] .leaf)) 66967 [66928] (.node (.node
  (.node .leaf 66968 [66929] .leaf) 66969 [66930] .leaf) 66970 [66931] (.node (.node .leaf 66971
  [66932] .leaf) 66972 [66933] .leaf))) 66973 [66934] (.node (.node (.node (.node .leaf 66974
  [66935] .leaf) 66975 [66936] .leaf) 66976 [66937] (.node (.node .leaf 66977 [66938] .leaf) 66979
  [66940] .leaf)) 66980 [66941] (.node (.node (.node .leaf 66981 [66942] .leaf) 66982 [66943] .leaf)
  66983 [66944] (.node (.node .leaf 66984 [66945] .leaf) 66985 [66946] .leaf)))) 66986 [66947]
  (.node (.node (.node (.node (.node .leaf 66987 [66948] .leaf) 66988 [66949] .leaf) 66989 [66950]
  (.node (.node .leaf 66990 [66951] .leaf) 66991 [66952] .leaf)) 66992 [66953] (.node (.node (.node
  .leaf 66993 [66954] .leaf) 66995 [66956] .leaf) 66996 [66957] (.node (.node .leaf 66997 [66958]
  .leaf) 66998 [66959] .leaf))) 66999 [66960] (.node (.node (.node (.node .leaf 67000 [66961] .leaf)
  67001 [66962] .leaf) 67003 [66964] (.node (.node .leaf 67004 [66965] .leaf) 68800 [68736] .leaf))
  68801 [68737] (.node (.node (.node .leaf 68802 [68738] .leaf) 68803 [68739] .leaf) 68804 [68740]
  (.node (.node .leaf 68805 [68741] .leaf) 68806 [68742] .leaf))))) 68807 [68743] (.node (.node
  (.node (.node (.node (.node .leaf 68808 [68744] .leaf) 68809 [68745] .leaf) 68810 [68746] (.node
  (.node .leaf 68811 [68747] .leaf) 68812 [68748] .leaf)) 68813 [68749] (.node (.node (.node .leaf
  68814 [68750] .leaf) 68815 [68751] .leaf) 68816 [68752] (.node (.node .leaf 68817 [68753] .leaf)
  68818 [68754] .leaf))) 68819 [68755] (.node (.node (.node (.node .leaf 68820 [68756] .leaf) 68821
  [68757] .leaf) 68822 [68758] (.node (.node .leaf 68823 [68759] .leaf) 68824 [68760] .leaf)) 68825
  [68761] (.node (.node (.node .leaf 68826 [68762] .leaf) 68827 [68763] .leaf) 68828 [68764] (.node
  (.node .leaf 68829 [68765] .leaf) 68830 [68766] .leaf)))) 68831 [68767] (.node (.node (.node
  (.node (.node .leaf 68832 [68768] .leaf) 68833 [68769] .leaf) 68834 [68770] (.node (.node .leaf
  68835 [68771] .leaf) 68836 [68772] .leaf)) 68837 [68773] (.node (.node (.node .leaf 68838 [68774]
  .leaf) 68839 [68775] .leaf) 68840 [68776] (.node (.node .leaf 68841 [68777] .leaf) 68842 [68778]
  .leaf))) 68843 [68779] (.node (.node (.node (.node .leaf 68844 [68780] .leaf) 68845 [68781] .leaf)
  68846 [68782] (.node (.node .leaf 68847 [68783] .leaf) 68848 [68784] .leaf)) 68849 [68785] (.node
  (.node (.node .leaf 68850 [68786] .leaf) 71872 [71840] .leaf) 71873 [71841] (.node .leaf 71874
  [71842] .leaf)))))) 71875 [71843] (.node (.node (.node (.node (.node (.node (.node .leaf 71876
  [71844] .leaf) 71877 [71845] .leaf) 71878 [71846] (.node (.node .leaf 71879 [71847] .leaf) 71880
  [71848] .leaf)) 71881 [71849] (.node (.node (.node .leaf 71882 [71850] .leaf) 71883 [71851] .leaf)
  71884 [71852] (.node (.node .leaf 71885 [71853] .leaf) 71886 [71854] .leaf))) 71887 [71855] (.node
  (.node (.node (.node .leaf 71888 [71856] .leaf) 71889 [71857] .leaf) 71890 [71858] (.node (.node
  .leaf 71891 [71859] .leaf) 71892 [71860] .leaf)) 71893 [71861] (.node (.node (.node .leaf 71894
  [71862] .leaf) 71895 [71863] .leaf) 71896 [71864] (.node (.node .leaf 71897 [71865] .leaf) 71898
  [71866] .leaf)))) 71899 [71867] (.node (.node (.node (.node (.node .leaf 71900 [71868] .leaf)
  71901 [71869] .leaf) 71902 [71870] (.node (.node .leaf 71903 [71871] .leaf) 93792 [93760] .leaf))
  93793 [93761] (.node (.node (.node .leaf 93794 [93762] .leaf) 93795 [93763] .leaf) 93796 [93764]
  (.node (.node .leaf 93797 [93765] .leaf) 93798 [93766] .leaf))) 93799 [93767] (.node (.node (.node
  (.node .leaf 93800 [93768] .leaf) 93801 [93769] .leaf) 93802 [93770] (.node (.node .leaf 93803
  [93771] .leaf) 93804 [93772] .leaf)) 93805 [93773] (.node (.node (.node .leaf 93806 [93774] .leaf)
  93807 [93775] .leaf) 93808 [93776] (.node (.node .leaf 93809 [93777] .leaf) 93810 [93778]
  .leaf))))) 93811 [93779] (.node (.node (.node (.node (.node (.node .leaf 93812 [93780] .leaf)
  93813 [93781] .leaf) 93814 [93782] (.node (.node .leaf 93815 [93783] .leaf) 93816 [93784] .leaf))
  93817 [93785] (.node (.node (.node .leaf 93818 [93786] .leaf) 93819 [93787] .leaf) 93820 [93788]
  (.node (.node .leaf 93821 [93789] .leaf) 93822 [93790] .leaf))) 93823 [93791] (.node (.node (.node
  (.node .leaf 125218 [125184] .leaf) 125219 [125185] .leaf) 125220 [125186] (.node (.node .leaf
  125221 [125187] .leaf) 125222 [125188] .leaf)) 125223 [125189] (.node (.node (.node .leaf 125224
  [125190] .leaf) 125225 [125191] .leaf) 125226 [125192] (.node (.node .leaf 125227 [125193] .leaf)
  125228 [125194] .leaf)))) 125229 [125195] (.node (.node (.node (.node (.node .leaf 125230 [125196]
  .leaf) 125231 [125197] .leaf) 125232 [125198] (.node (.node .leaf 125233 [125199] .leaf) 125234
  [125200] .leaf)) 125235 [125201] (.node (.node (.node .leaf 125236 [125202] .leaf) 125237 [125203]
  .leaf) 125238 [125204] (.node (.node .leaf 125239 [125205] .leaf) 125240 [125206] .leaf))) 125241
  [125207] (.node (.node (.node (.node .leaf 125242 [125208] .leaf) 125243 [125209] .leaf) 125244
  [125210] (.node (.node .leaf 125245 [125211] .leaf) 125246 [125212] .leaf)) 125247 [125213] (.node
  (.node (.node .leaf 125248 [125214] .leaf) 125249 [125215] .leaf) 125250 [125216] (.node .leaf
  125251 [125217] .leaf))))))))))

/-- Uppercase one code point to its uppercase expansion: the table entry
when present, the code point itself otherwise. -/
def pyUpperChars (c : Nat) : List Nat :=
  match findT upperTree c with
  | some r => r
  | none => [c]

/-- `fake_upper` from `plugin_loader.py` lines 11-12: `text.upper()` —
each code point replaced by its uppercase expansion. -/
def fake_upper (s : PyStr) : PyStr := s.flatMap pyUpperChars

/-- `fake_strip` from `plugin_loader.py` lines 14-15: `text.strip()` —
whitespace removed from both ends. -/
def fake_strip (s : PyStr) : PyStr :=
  ((s.dropWhile pyIsSpace).reverse.dropWhile pyIsSpace).reverse

/-- A transformation: a unary string-to-string function. -/
abbrev Transform := PyStr → PyStr

/-- A registry: mapping from step name to transformation, embedded as an
association list (the fake module's `REGISTRY` dict). -/
abbrev Registry := List (String × Transform)

/-- Dict lookup in a registry. -/
def lookupStep (reg : Registry) (name : String) : Option Transform :=
  List.lookup name reg

/-- A namespace object: it may or may not expose a `REGISTRY` mapping. -/
structure PNamespace where
  registry? : Option Registry

/-- The external namespace-resolution capability: identifier to namespace
object, `none` when no namespace with that identifier exists. -/
abbrev Resolver := String → Option PNamespace

/-- The `REGISTRY` of the fake plugin module (`plugin_loader.py` lines 17-21). -/
def fakeRegistry : Registry := [("upper", fake_upper), ("strip", fake_strip)]

/-- The resolver installed by the test: `sys.modules` holds exactly the
fake module `fake_plugins` (`plugin_loader.py` line 23). -/
def fakeResolver : Resolver := fun name =>
  if name = "fake_plugins" then some ⟨some fakeRegistry⟩ else none

instance {ε α : Type} [DecidableEq ε] [DecidableEq α] : DecidableEq (Except ε α) := fun a b =>
  match a, b with
  | .error e, .error f =>
    if h : e = f then .isTrue (by rw [h]) else .isFalse (by intro hc; cases hc; exact h rfl)
  | .ok x, .ok y =>
    if h : x = y then .isTrue (by rw [h]) else .isFalse (by intro hc; cases hc; exact h rfl)
  | .error _, .ok _ => .isFalse (by intro hc; cases hc)
  | .ok _, .error _ => .isFalse (by intro hc; cases hc)

/-- The error taxonomy of the core (spec section 7). -/
inductive PError where
  | configError : PError
  | namespaceError (ns : String) : PError
  | stepNotFound (name : String) (pos : Nat) : PError
deriving DecidableEq

/-- A validated configuration (spec section 3). -/
structure ConfigSpec where
  ns : String
  steps : List String
deriving DecidableEq

/-- A parsed JSON-like value, as found in a configuration document. -/
inductive JVal where
  | jstr (s : String) : JVal
  | jlist (xs : List JVal) : JVal
  | jother : JVal

/-- A configuration document: either unparseable, or a record of fields. -/
inductive Doc where
  | malformed : Doc
  | record (fields : List (String × JVal)) : Doc

/-- Extract a string from a JSON value, if it is one. -/
def asStr : JVal → Option String
  | .jstr s => some s
  | _ => none

/-- Extract a list of strings from a JSON value, if it is one. -/
def asStrList : JVal → Option (List String)
  | .jlist xs => xs.mapM asStr
  | _ => none

/-- Modelled from the spec: the ConfigSpec Loader (spec section 4.1) of the
missing `plugin_loader` module.  Fails with `ConfigError` when the document
is malformed, the `module` field is missing or not a string, or the `steps`
field is missing or not a sequence of strings; otherwise returns the
populated `ConfigSpec`. -/
def loadConfig : Doc → Except PError ConfigSpec
  | .malformed => .error .configError
  | .record fields =>
    match fields.lookup "module" with
    | none => .error .configError
    | some v =>
      match asStr v with
      | none => .error .configError
      | some ns =>
        match fields.lookup "steps" with
        | none => .error .configError
        | some w =>
          match asStrList w with
          | none => .error .configError
          | some steps => .ok ⟨ns, steps⟩

/-- Modelled from the spec: step resolution of the Pipeline Builder (spec
section 4.2, step 3) of the missing `plugin_loader` module.  Looks up each
step name in order, fail-fast, reporting the first missing name together
with its ordinal position. -/
def resolveSteps (reg : Registry) : List String → Nat → Except PError (List Transform)
  | [], _ => .ok []
  | s :: rest, i =>
    match lookupStep reg s with
    | none => .error (.stepNotFound s i)
    | some f =>
      match resolveSteps reg rest (i + 1) with
      | .error e => .error e
      | .ok fs => .ok (f :: fs)

/-- Apply a precomputed sequence of transformations left-to-right. -/
def runPipeline (fs : List Transform) (x : PyStr) : PyStr :=
  fs.foldl (fun acc f => f acc) x

/-- Modelled from the spec: `build` of the Pipeline Builder (spec section
4.2) of the missing `plugin_loader` module.  Resolves the namespace
(`NamespaceError` when it does not exist or exposes no registry), resolves
every step eagerly, and returns the composed pipeline. -/
def build (resolve : Resolver) (spec : ConfigSpec) : Except PError Transform :=
  match resolve spec.ns with
  | none => .error (.namespaceError spec.ns)
  | some nsObj =>
    match nsObj.registry? with
    | none => .error (.namespaceError spec.ns)
    | some reg =>
      match resolveSteps reg spec.steps 0 with
      | .error e => .error e
      | .ok fs => .ok (runPipeline fs)

/-- Modelled from the spec: `init_pipeline` of the missing `plugin_loader`
module — load the configuration document, then build the pipeline. -/
def init_pipeline (resolve : Resolver) (doc : Doc) : Except PError Transform :=
  match loadConfig doc with
  | .error e => .error e
  | .ok spec => build resolve spec

/-- Build and immediately invoke on one input (used to state behaviour,
since pipelines are functions). -/
def buildAndRun (resolve : Resolver) (spec : ConfigSpec) (x : PyStr) :
    Except PError PyStr :=
  match build resolve spec with
  | .error e => .error e
  | .ok p => .ok (p x)

/-- The configuration document written by `test_pipeline_basic`. -/
def testDoc : Doc :=
  .record [("module", .jstr "fake_plugins"),
           ("steps", .jlist [.jstr "strip", .jstr "upper"])]

/-- Load a document, build, and invoke on one input. -/
def initAndRun (resolve : Resolver) (doc : Doc) (x : PyStr) : Except PError PyStr :=
  match init_pipeline resolve doc with
  | .error e => .error e
  | .ok p => .ok (p x)

/-- The namespace-name field of a document: the `module` field, when
present and a string. -/
def docModule : Doc → Option String
  | .malformed => none
  | .record fields => (fields.lookup "module").bind asStr

/-- The steps field of a document: the `steps` field, when present and a
sequence of strings. -/
def docSteps : Doc → Option (List String)
  | .malformed => none
  | .record fields => (fields.lookup "steps").bind asStrList

/-- C1: building from the test configuration against the fake registry and
applying the pipeline to the padded input yields the uppercased trimmed
string. -/
theorem C1_pipeline_basic :
    initAndRun fakeResolver testDoc (strToPy "  hello world  ") =
      .ok (strToPy "HELLO WORLD") := by
  decide

/-- C2: for every valid registry and every two-element step list with both
names present, the built pipeline applies the steps left-to-right:
`pipeline x = registry[s2] (registry[s1] x)`. -/
theorem C2_left_to_right (resolve : Resolver) (ns : String) (reg : Registry)
    (s1 s2 : String) (f1 f2 : Transform)
    (hns : resolve ns = some ⟨some reg⟩)
    (h1 : lookupStep reg s1 = some f1) (h2 : lookupStep reg s2 = some f2) :
    ∀ x : PyStr, buildAndRun resolve ⟨ns, [s1, s2]⟩ x = .ok (f2 (f1 x)) := by
  intro x
  simp [buildAndRun, build, hns, resolveSteps, h1, h2, runPipeline]

/-- Witness for C2 at the fake registry: strip then upper on the padded input. -/
theorem C2_left_to_right_witness :
    buildAndRun fakeResolver ⟨"fake_plugins", ["strip", "upper"]⟩
        (strToPy "  hello world  ") =
      .ok (fake_upper (fake_strip (strToPy "  hello world  "))) :=
  C2_left_to_right fakeResolver "fake_plugins" fakeRegistry "strip" "upper"
    fake_strip fake_upper rfl rfl rfl (strToPy "  hello world  ")

/-- C3 (amended): for every ConfigSpec whose namespace resolves to a
registry and whose steps sequence is empty, build succeeds and returns the
identity pipeline. -/
theorem C3_empty_steps_identity (resolve : Resolver) (spec : ConfigSpec)
    (reg : Registry) (hns : resolve spec.ns = some ⟨some reg⟩)
    (hsteps : spec.steps = []) :
    ∃ p, build resolve spec = .ok p ∧ ∀ x, p x = x := by
  refine ⟨runPipeline [], ?_, fun x => rfl⟩
  simp [build, hns, hsteps, resolveSteps]

/-- Witness for C3: the fake namespace with an empty step list. -/
theorem C3_empty_steps_identity_witness :
    ∃ p, build fakeResolver ⟨"fake_plugins", []⟩ = .ok p ∧ ∀ x, p x = x :=
  C3_empty_steps_identity fakeResolver ⟨"fake_plugins", []⟩ fakeRegistry rfl rfl

/-- Counterexample to C3 as stated: a ConfigSpec with empty steps whose
namespace does not resolve makes `build` fail with `NamespaceError`, so
`build` does not succeed for every empty-steps ConfigSpec. -/
theorem C3_counterexample :
    build fakeResolver ⟨"no_such_module", []⟩ =
        .error (.namespaceError "no_such_module") ∧
      ∀ p, build fakeResolver ⟨"no_such_module", []⟩ ≠ .ok p := by
  constructor
  · rfl
  · intro p h
    rw [show build fakeResolver ⟨"no_such_module", []⟩ =
        .error (.namespaceError "no_such_module") from rfl] at h
    cases h

/-- Fail-fast step resolution: when some step is missing, `resolveSteps`
errors with a missing step name together with its ordinal position. -/
theorem resolveSteps_missing (reg : Registry) :
    ∀ (steps : List String) (i : Nat),
      (∃ s ∈ steps, lookupStep reg s = none) →
      ∃ name j, resolveSteps reg steps i = .error (.stepNotFound name (i + j)) ∧
        steps[j]? = some name ∧ lookupStep reg name = none := by
  intro steps
  induction steps with
  | nil => intro i h; simp at h
  | cons s rest ih =>
    intro i h
    cases hs : lookupStep reg s with
    | none =>
      refine ⟨s, 0, ?_, by simp, hs⟩
      simp [resolveSteps, hs]
    | some f =>
      have hr : ∃ t ∈ rest, lookupStep reg t = none := by
        rcases h with ⟨t, ht, hmiss⟩
        rcases List.mem_cons.mp ht with h1 | h2
        · rw [h1, hs] at hmiss; cases hmiss
        · exact ⟨t, h2, hmiss⟩
      obtain ⟨name, j, herr, hget, hmiss⟩ := ih (i + 1) hr
      refine ⟨name, j + 1, ?_, ?_, hmiss⟩
      · rw [show i + (j + 1) = i + 1 + j from by omega]
        simp [resolveSteps, hs, herr]
      · simpa using hget

/-- C4: when at least one step name is absent from the resolved registry,
`build` fails with `StepNotFoundError` carrying a missing step's name and
its ordinal position, and returns no pipeline; concretely,
`["strip", "missing_step"]` against the fake registry fails at position 1. -/
theorem C4_step_not_found (resolve : Resolver) (spec : ConfigSpec)
    (reg : Registry) (hns : resolve spec.ns = some ⟨some reg⟩)
    (hmiss : ∃ s ∈ spec.steps, lookupStep reg s = none) :
    (∃ name pos, build resolve spec = .error (.stepNotFound name pos) ∧
        spec.steps[pos]? = some name ∧ lookupStep reg name = none) ∧
      (∀ p, build resolve spec ≠ .ok p) ∧
      build fakeResolver ⟨"fake_plugins", ["strip", "missing_step"]⟩ =
        .error (.stepNotFound "missing_step" 1) := by
  obtain ⟨name, j, herr, hget, hm⟩ := resolveSteps_missing reg spec.steps 0 hmiss
  have hb : build resolve spec = .error (.stepNotFound name (0 + j)) := by
    simp [build, hns, herr]
  refine ⟨⟨name, 0 + j, hb, by simpa using hget, hm⟩, ?_, by rfl⟩
  intro p h
  rw [hb] at h
  cases h

/-- Witness for C4: the concrete missing-step scenario from the spec. -/
theorem C4_step_not_found_witness :
    (∃ name pos,
        build fakeResolver ⟨"fake_plugins", ["strip", "missing_step"]⟩ =
          .error (.stepNotFound name pos) ∧
        (["strip", "missing_step"] : List String)[pos]? = some name ∧
        lookupStep fakeRegistry name = none) ∧
      (∀ p, build fakeResolver ⟨"fake_plugins", ["strip", "missing_step"]⟩ ≠
        .ok p) ∧
      build fakeResolver ⟨"fake_plugins", ["strip", "missing_step"]⟩ =
        .error (.stepNotFound "missing_step" 1) :=
  C4_step_not_found fakeResolver ⟨"fake_plugins", ["strip", "missing_step"]⟩
    fakeRegistry rfl ⟨"missing_step", by simp, rfl⟩

/-- C5: when the namespace identifier does not resolve to any namespace,
`build` fails with `NamespaceError` and never returns a pipeline. -/
theorem C5_namespace_error (resolve : Resolver) (spec : ConfigSpec)
    (hns : resolve spec.ns = none) :
    build resolve spec = .error (.namespaceError spec.ns) ∧
      ∀ p, build resolve spec ≠ .ok p := by
  have hb : build resolve spec = .error (.namespaceError spec.ns) := by
    simp [build, hns]
  refine ⟨hb, fun p h => ?_⟩
  rw [hb] at h
  cases h

/-- Witness for C5: an unknown module name against the test resolver. -/
theorem C5_namespace_error_witness :
    build fakeResolver ⟨"no_module_here", ["strip"]⟩ =
        .error (.namespaceError "no_module_here") ∧
      ∀ p, build fakeResolver ⟨"no_module_here", ["strip"]⟩ ≠ .ok p :=
  C5_namespace_error fakeResolver ⟨"no_module_here", ["strip"]⟩ rfl

/-- C7: resolution is eager — once all steps resolve, the returned pipeline
is exactly the replay of the precomputed function sequence (so invoking it
performs no lookups and cannot fail), and the result of `build` depends
only on the registry obtained at build time: any resolver presenting the
same registry yields the same pipeline. -/
theorem C7_eager_resolution (resolve : Resolver) (ns : String) (reg : Registry)
    (steps : List String) (hns : resolve ns = some ⟨some reg⟩) :
    (∀ fs, resolveSteps reg steps 0 = .ok fs →
        build resolve ⟨ns, steps⟩ = .ok (runPipeline fs)) ∧
      (∀ resolve' : Resolver, resolve' ns = some ⟨some reg⟩ →
        build resolve' ⟨ns, steps⟩ = build resolve ⟨ns, steps⟩) := by
  constructor
  · intro fs hfs
    simp [build, hns, hfs]
  · intro resolve' hns'
    simp [build, hns, hns']

/-- Witness for C7: the fake resolver with a single strip step. -/
theorem C7_eager_resolution_witness :
    build fakeResolver ⟨"fake_plugins", ["strip"]⟩ =
      .ok (runPipeline [fake_strip]) :=
  (C7_eager_resolution fakeResolver "fake_plugins" fakeRegistry ["strip"]
    rfl).1 [fake_strip] rfl

/-- C8: duplicate step names are permitted and each occurrence is applied
independently: `[s, s]` builds a pipeline computing `R[s] (R[s] x)`. -/
theorem C8_duplicates (resolve : Resolver) (ns : String) (reg : Registry)
    (s : String) (f : Transform) (hns : resolve ns = some ⟨some reg⟩)
    (hs : lookupStep reg s = some f) :
    ∀ x : PyStr, buildAndRun resolve ⟨ns, [s, s]⟩ x = .ok (f (f x)) := by
  intro x
  simp [buildAndRun, build, hns, resolveSteps, hs, runPipeline]

/-- Witness for C8: the upper step duplicated, on a concrete input. -/
theorem C8_duplicates_witness :
    buildAndRun fakeResolver ⟨"fake_plugins", ["upper", "upper"]⟩
        (strToPy "ab") =
      .ok (fake_upper (fake_upper (strToPy "ab"))) :=
  C8_duplicates fakeResolver "fake_plugins" fakeRegistry "upper" fake_upper
    rfl rfl (strToPy "ab")

/-- C6: the ConfigSpec Loader returns a populated ConfigSpec exactly when
the document parses and carries a string `module` field and a
string-sequence `steps` field; whenever either field is missing or
mistyped, or the document is malformed, it fails with `ConfigError`. -/
theorem C6_loader (d : Doc) :
    (∀ ns steps, loadConfig d = .ok ⟨ns, steps⟩ ↔
        docModule d = some ns ∧ docSteps d = some steps) ∧
      (docModule d = none ∨ docSteps d = none →
        loadConfig d = .error .configError) := by
  cases d with
  | malformed =>
    refine ⟨fun ns steps => ?_, fun _ => rfl⟩
    simp [loadConfig, docModule, docSteps]
  | record fields =>
    rcases hm : fields.lookup "module" with _ | v
    · refine ⟨fun ns steps => ?_, fun _ => ?_⟩
      · simp [loadConfig, docModule, hm]
      · simp [loadConfig, hm]
    · rcases hv : asStr v with _ | s
      · refine ⟨fun ns steps => ?_, fun _ => ?_⟩
        · simp [loadConfig, docModule, hm, hv]
        · simp [loadConfig, hm, hv]
      · rcases hw : fields.lookup "steps" with _ | w
        · refine ⟨fun ns steps => ?_, fun _ => ?_⟩
          · simp [loadConfig, docModule, docSteps, hm, hv, hw]
          · simp [loadConfig, hm, hv, hw]
        · rcases hsl : asStrList w with _ | steps0
          · refine ⟨fun ns steps => ?_, fun _ => ?_⟩
            · simp [loadConfig, docModule, docSteps, hm, hv, hw, hsl]
            · simp [loadConfig, hm, hv, hw, hsl]
          · refine ⟨fun ns steps => ?_, fun h => ?_⟩
            · simp only [loadConfig, docModule, docSteps, hm, hv, hw, hsl,
                Option.some_bind, Option.some.injEq, Except.ok.injEq,
                ConfigSpec.mk.injEq]
            · rcases h with h1 | h2
              · simp [docModule, hm, hv] at h1
              · simp [docSteps, hw, hsl] at h2

/-- Witness for C6: the test's configuration document loads to the
expected ConfigSpec. -/
theorem C6_loader_witness :
    loadConfig testDoc = .ok ⟨"fake_plugins", ["strip", "upper"]⟩ :=
  ((C6_loader testDoc).1 "fake_plugins" ["strip", "upper"]).mpr ⟨rfl, rfl⟩

/-- A pair looked up in a mapping tree satisfies any property that
`allTree` checks on every node. -/
theorem find_allTree (P : Nat → List Nat → Bool) (t : UTree)
    (hall : allTree P t = true) :
    ∀ c r, findT t c = some r → P c r = true := by
  induction t with
  | leaf => intro c r h; simp [findT] at h
  | node l k v rt ihl ihr =>
    intro c r h
    simp only [allTree, Bool.and_eq_true] at hall
    obtain ⟨⟨h1, h2⟩, h3⟩ := hall
    simp only [findT] at h
    by_cases hlt : c < k
    · rw [if_pos hlt] at h
      exact ihl h2 c r h
    · rw [if_neg hlt] at h
      by_cases heq : c = k
      · rw [if_pos heq] at h
        injection h with h2
        subst heq
        rw [← h2]
        exact h1
      · rw [if_neg heq] at h
        exact ihr h3 c r h

/-- Checked over the whole table: every uppercase expansion is nonempty
and contains no whitespace code point. -/
theorem upperTree_outputs :
    allTree (fun _ v => v.all (fun d => !pyIsSpace d) && !v.isEmpty)
      upperTree = true := by decide

/-- Checked over the whole table: no character of an uppercase expansion
has an uppercase entry of its own (uppercasing is idempotent). -/
theorem upperTree_fixed :
    allTree (fun _ v => v.all fun d => (findT upperTree d).isNone)
      upperTree = true := by decide

/-- Checked over the whole table: no whitespace code point has an
uppercase entry. -/
theorem upperTree_ws : ∀ c ∈ pyWhitespace, findT upperTree c = none := by
  decide

/-- Uppercasing leaves whitespace code points unchanged. -/
theorem pyUpperChars_ws (c : Nat) (h : pyIsSpace c = true) :
    pyUpperChars c = [c] := by
  have hc : c ∈ pyWhitespace := of_decide_eq_true h
  simp [pyUpperChars, upperTree_ws c hc]

/-- Uppercasing a non-whitespace code point yields no whitespace. -/
theorem pyUpperChars_nonspace (c d : Nat) (hc : pyIsSpace c = false)
    (hd : d ∈ pyUpperChars c) : pyIsSpace d = false := by
  cases hf : findT upperTree c with
  | none =>
    have he : d = c := by simpa [pyUpperChars, hf] using hd
    rw [he]
    exact hc
  | some r =>
    have hp := find_allTree _ upperTree upperTree_outputs c r hf
    simp only [Bool.and_eq_true] at hp
    have hd2 : d ∈ r := by simpa [pyUpperChars, hf] using hd
    have := List.all_eq_true.mp hp.1 d hd2
    simpa using this

/-- An uppercase expansion is never empty. -/
theorem pyUpperChars_ne_nil (c : Nat) : pyUpperChars c ≠ [] := by
  cases hf : findT upperTree c with
  | none => simp [pyUpperChars, hf]
  | some r =>
    have hp := find_allTree _ upperTree upperTree_outputs c r hf
    simp only [Bool.and_eq_true] at hp
    have hr : r ≠ [] := by
      intro he
      rw [he] at hp
      simp at hp
    simpa [pyUpperChars, hf] using hr

/-- Every character of an uppercase expansion is its own uppercase. -/
theorem pyUpperChars_fixed (c : Nat) :
    ∀ d ∈ pyUpperChars c, pyUpperChars d = [d] := by
  intro d hd
  cases hf : findT upperTree c with
  | none =>
    have he : d = c := by simpa [pyUpperChars, hf] using hd
    subst he
    simp [pyUpperChars, hf]
  | some r =>
    have hp := find_allTree _ upperTree upperTree_fixed c r hf
    have hd2 : d ∈ r := by simpa [pyUpperChars, hf] using hd
    have h2 := List.all_eq_true.mp hp d hd2
    have hfd : findT upperTree d = none := by
      cases hx : findT upperTree d with
      | none => rfl
      | some y => rw [hx] at h2; simp at h2
    simp [pyUpperChars, hfd]

/-- `dropWhile` slides past a per-character expansion that keeps whitespace
fixed and maps non-whitespace to nonempty non-whitespace blocks. -/
theorem dropWhile_flatMap (u : Nat → List Nat)
    (hws : ∀ c, pyIsSpace c = true → u c = [c])
    (hnw : ∀ c d, pyIsSpace c = false → d ∈ u c → pyIsSpace d = false)
    (hne : ∀ c, u c ≠ []) :
    ∀ x : List Nat,
      (x.flatMap u).dropWhile pyIsSpace =
        (x.dropWhile pyIsSpace).flatMap u := by
  intro x
  induction x with
  | nil => rfl
  | cons c t ih =>
    by_cases hc : pyIsSpace c = true
    · simp [List.flatMap_cons, hws c hc, List.dropWhile_cons, hc, ih]
    · have hc2 : pyIsSpace c = false := by
        cases hx : pyIsSpace c
        · rfl
        · exact absurd hx hc
      obtain ⟨d, ds, hds⟩ : ∃ d ds, u c = d :: ds := by
        cases hu : u c with
        | nil => exact absurd hu (hne c)
        | cons d ds => exact ⟨d, ds, rfl⟩
      have hd : pyIsSpace d = false :=
        hnw c d hc2 (by rw [hds]; exact List.mem_cons_self _ _)
      simp [List.flatMap_cons, hds, List.dropWhile_cons, hd, hc2,
        List.cons_append]

/-- Reversal turns a per-character expansion into the expansion with each
block reversed, applied to the reversed string. -/
theorem reverse_flatMap (u : Nat → List Nat) :
    ∀ x : List Nat,
      (x.flatMap u).reverse =
        x.reverse.flatMap (fun c => (u c).reverse) := by
  intro x
  induction x with
  | nil => rfl
  | cons c t ih =>
    simp [List.flatMap_cons, List.flatMap_append, List.flatMap_nil,
      List.reverse_append, ih]

/-- Stripping commutes with any per-character expansion that keeps
whitespace fixed and maps non-whitespace to nonempty non-whitespace. -/
theorem strip_flatMap (u : Nat → List Nat)
    (hws : ∀ c, pyIsSpace c = true → u c = [c])
    (hnw : ∀ c d, pyIsSpace c = false → d ∈ u c → pyIsSpace d = false)
    (hne : ∀ c, u c ≠ []) (x : PyStr) :
    fake_strip (x.flatMap u) = (fake_strip x).flatMap u := by
  have hws2 : ∀ c, pyIsSpace c = true → (u c).reverse = [c] := fun c h => by
    rw [hws c h]
    rfl
  have hnw2 : ∀ c d, pyIsSpace c = false → d ∈ (u c).reverse →
      pyIsSpace d = false :=
    fun c d h hd => hnw c d h (List.mem_reverse.mp hd)
  have hne2 : ∀ c, (u c).reverse ≠ [] := by
    intro c h
    apply hne c
    simpa using congrArg List.reverse h
  unfold fake_strip
  rw [dropWhile_flatMap u hws hnw hne, reverse_flatMap u,
    dropWhile_flatMap _ hws2 hnw2 hne2, reverse_flatMap]
  simp [List.reverse_reverse]

/-- C9: the fake transformations commute — stripping then uppercasing
equals uppercasing then stripping, because uppercasing keeps whitespace
code points fixed and expands non-whitespace ones to nonempty
non-whitespace blocks — and both step orders on the padded test input
yield the trimmed uppercase string. -/
theorem C9_strip_upper_commute :
    (∀ x : PyStr, fake_upper (fake_strip x) = fake_strip (fake_upper x)) ∧
      buildAndRun fakeResolver ⟨"fake_plugins", ["strip", "upper"]⟩
          (strToPy "  hello world  ") = .ok (strToPy "HELLO WORLD") ∧
      buildAndRun fakeResolver ⟨"fake_plugins", ["upper", "strip"]⟩
          (strToPy "  hello world  ") = .ok (strToPy "HELLO WORLD") := by
  refine ⟨fun x => ?_, by decide, by decide⟩
  exact (strip_flatMap pyUpperChars pyUpperChars_ws pyUpperChars_nonspace
    pyUpperChars_ne_nil x).symm

/-- A list whose head fails `p` is unchanged by `dropWhile p`. -/
theorem dropWhile_eq_self_of_head (p : Nat → Bool) (m : List Nat)
    (h : ∀ a ∈ m.head?, p a = false) : m.dropWhile p = m := by
  cases m with
  | nil => rfl
  | cons a t =>
    have ha : p a = false := h a (by simp)
    simp [List.dropWhile_cons, ha]

/-- The head of `dropWhile p l` fails `p`. -/
theorem head_dropWhile_false (p : Nat → Bool) (l : List Nat) :
    ∀ a ∈ (l.dropWhile p).head?, p a = false := by
  induction l with
  | nil => intro a h; simp at h
  | cons b t ih =>
    intro a h
    by_cases hb : p b
    · rw [List.dropWhile_cons, if_pos hb] at h
      exact ih a h
    · rw [List.dropWhile_cons, if_neg hb] at h
      simp at h
      subst h
      exact Bool.not_eq_true _ |>.mp hb

/-- A nonempty prefix has the same head as the whole list. -/
theorem head?_prefix_eq {m l : List Nat} (h : m <+: l) (hm : m ≠ []) :
    l.head? = m.head? := by
  obtain ⟨t, rfl⟩ := h
  cases m with
  | nil => exact absurd rfl hm
  | cons a s => rfl

/-- A stripped string has no leading whitespace left to drop. -/
theorem dropWhile_fake_strip (s : PyStr) :
    List.dropWhile pyIsSpace (fake_strip s) = fake_strip s := by
  apply dropWhile_eq_self_of_head
  intro a ha
  by_cases hm : fake_strip s = []
  · rw [hm] at ha; simp at ha
  · have hpref : fake_strip s <+: List.dropWhile pyIsSpace s := by
      rw [show fake_strip s =
        List.rdropWhile pyIsSpace (List.dropWhile pyIsSpace s) from rfl]
      exact List.rdropWhile_prefix _ _
    have hh : (List.dropWhile pyIsSpace s).head? = (fake_strip s).head? :=
      head?_prefix_eq hpref hm
    apply head_dropWhile_false pyIsSpace s
    rw [hh]
    exact ha

/-- Stripping is idempotent. -/
theorem fake_strip_idem (s : PyStr) : fake_strip (fake_strip s) = fake_strip s := by
  rw [show fake_strip (fake_strip s) =
    List.rdropWhile pyIsSpace (List.dropWhile pyIsSpace (fake_strip s)) from rfl]
  rw [dropWhile_fake_strip]
  rw [show fake_strip s =
    List.rdropWhile pyIsSpace (List.dropWhile pyIsSpace s) from rfl]
  exact List.rdropWhile_idempotent _ _

/-- A block of characters that are each their own uppercase is fixed by
the expansion. -/
theorem flatMap_fixed_eq (l : List Nat)
    (h : ∀ d ∈ l, pyUpperChars d = [d]) :
    l.flatMap pyUpperChars = l := by
  induction l with
  | nil => rfl
  | cons d ds ih =>
    rw [List.flatMap_cons, h d (List.mem_cons_self _ _),
      ih (fun e he => h e (List.mem_cons_of_mem _ he)),
      List.singleton_append]

/-- Uppercasing is idempotent. -/
theorem fake_upper_idem (s : PyStr) : fake_upper (fake_upper s) = fake_upper s := by
  show (s.flatMap pyUpperChars).flatMap pyUpperChars = s.flatMap pyUpperChars
  induction s with
  | nil => rfl
  | cons c t ih =>
    simp only [List.flatMap_cons, List.flatMap_append, ih,
      flatMap_fixed_eq (pyUpperChars c) (pyUpperChars_fixed c)]

/-- C10: both fake transformations are idempotent, so duplicating either
step in a pipeline leaves the pipeline's output unchanged. -/
theorem C10_idempotent :
    (∀ x : PyStr, fake_strip (fake_strip x) = fake_strip x) ∧
      (∀ x : PyStr, fake_upper (fake_upper x) = fake_upper x) ∧
      (∀ x : PyStr,
        buildAndRun fakeResolver ⟨"fake_plugins", ["strip", "strip"]⟩ x =
          buildAndRun fakeResolver ⟨"fake_plugins", ["strip"]⟩ x) ∧
      (∀ x : PyStr,
        buildAndRun fakeResolver ⟨"fake_plugins", ["upper", "upper"]⟩ x =
          buildAndRun fakeResolver ⟨"fake_plugins", ["upper"]⟩ x) := by
  have hres : fakeResolver "fake_plugins" = some ⟨some fakeRegistry⟩ := rfl
  have hstrip : lookupStep fakeRegistry "strip" = some fake_strip := rfl
  have hupper : lookupStep fakeRegistry "upper" = some fake_upper := rfl
  refine ⟨fake_strip_idem, fake_upper_idem, fun x => ?_, fun x => ?_⟩
  · simp [buildAndRun, build, hres, resolveSteps, hstrip, runPipeline,
      fake_strip_idem]
  · simp [buildAndRun, build, hres, resolveSteps, hupper, runPipeline,
      fake_upper_idem]
